import Mathlib

/-!
Verification of the resilience core of the voice-control repository
(`voice_control/core/error_handler.py`, `health_monitor.py`,
`resource_manager.py`) against its natural-language specification.

The Python classes are shallowly embedded: instance dictionaries become
association lists over decidable key types, timestamps (`time.time()`)
become `Nat` parameters passed explicitly, registered callbacks become
function values whose outcome datatype (`CbRes`) distinguishes a normal
return from a raised exception, and the observable actions of an
operation (invoking a callback, entering the critical path, appending a
history record, acquiring the handler lock, ...) are recorded in an
explicit event trace so that theorems can speak about what the code did.

Attributes of `ProductionErrorHandler` that are only read through
`hasattr` and are assigned nowhere in the repository
(`feature_manager`, `audio_manager`, `config_manager`,
`resource_manager`, `system_tray`) are embedded as the constantly-absent
branch, which is the behaviour of every instance the repository can
construct.
-/

set_option autoImplicit false

namespace VoiceControl

/-! ### Association lists (Python `dict` with insertion order) -/

/-- Lookup of the first binding of a key, i.e. `d.get(k)` / `d[k]`. -/
def assocGet {α β : Type} [DecidableEq α] : List (α × β) → α → Option β
  | [], _ => none
  | (k', v) :: t, k => if k' = k then some v else assocGet t k

/-- `d[k] = v`: replace the first binding of `k` in place, else append. -/
def assocSet {α β : Type} [DecidableEq α] : List (α × β) → α → β → List (α × β)
  | [], k, v => [(k, v)]
  | (k', v') :: t, k, v => if k' = k then (k, v) :: t else (k', v') :: assocSet t k v

/-- `del d[k]`: drop the first binding of `k`. -/
def assocErase {α β : Type} [DecidableEq α] : List (α × β) → α → List (α × β)
  | [], _ => []
  | (k', v') :: t, k => if k' = k then t else (k', v') :: assocErase t k

/-- The keys of a `dict` are pairwise distinct. -/
def NodupKeys {α β : Type} (l : List (α × β)) : Prop := (l.map Prod.fst).Nodup

instance nodupKeysDecidable {α β : Type} [DecidableEq α] (l : List (α × β)) :
    Decidable (NodupKeys l) :=
  inferInstanceAs (Decidable (l.map Prod.fst).Nodup)

theorem assocGet_set_self {α β : Type} [DecidableEq α] (l : List (α × β)) (k : α) (v : β) :
    assocGet (assocSet l k v) k = some v := by
  induction l with
  | nil => simp [assocGet, assocSet]
  | cons p t ih =>
    obtain ⟨k', v'⟩ := p
    by_cases h : k' = k <;> simp [assocGet, assocSet, h, ih]

theorem assocGet_set_ne {α β : Type} [DecidableEq α] (l : List (α × β)) (k k' : α) (v : β)
    (h : k' ≠ k) : assocGet (assocSet l k v) k' = assocGet l k' := by
  induction l with
  | nil => simp [assocGet, assocSet, Ne.symm h]
  | cons p t ih =>
    obtain ⟨k'', v''⟩ := p
    by_cases h2 : k'' = k
    · subst h2
      simp [assocGet, assocSet, Ne.symm h]
    · by_cases h3 : k'' = k' <;> simp [assocGet, assocSet, h2, h3, h, ih]

theorem assocGet_eq_none_of_not_mem {α β : Type} [DecidableEq α] (l : List (α × β)) (k : α)
    (h : k ∉ l.map Prod.fst) : assocGet l k = none := by
  induction l with
  | nil => rfl
  | cons p t ih =>
    obtain ⟨k', v'⟩ := p
    simp only [List.map_cons, List.mem_cons] at h
    push_neg at h
    simp [assocGet, Ne.symm h.1, ih h.2]

theorem assocGet_erase_self {α β : Type} [DecidableEq α] (l : List (α × β)) (k : α)
    (h : NodupKeys l) : assocGet (assocErase l k) k = none := by
  induction l with
  | nil => rfl
  | cons p t ih =>
    obtain ⟨k', v'⟩ := p
    simp only [NodupKeys, List.map_cons, List.nodup_cons] at h
    by_cases h2 : k' = k
    · subst h2
      simpa [assocErase] using assocGet_eq_none_of_not_mem t k' h.1
    · simp [assocErase, assocGet, h2, ih h.2]

/-- Keep the last `n` entries of a list when it is longer than `n`
(Python `l[-n:]` guarded by `len(l) > n`). -/
def trimLast {α : Type} (l : List α) (n : Nat) : List α :=
  if n < l.length then l.drop (l.length - n) else l

/-! ### Error handler data model (`error_handler.py`) -/

/-- `ErrorSeverity` (error_handler.py lines 27-32). -/
inductive Severity
  | low
  | medium
  | high
  | critical
deriving DecidableEq, Repr

/-- `RecoveryAction` (error_handler.py lines 35-41). -/
inductive RecoveryAction
  | retry
  | fallback
  | restartComponent
  | gracefulDegradation
  | shutdown
deriving DecidableEq, Repr

/-- A Python exception value as `handle_error` observes it: its dynamic
type name (`type(error).__name__`), its message, and the `severity` and
`recovery_action` attributes when the object carries them
(`getattr`/`hasattr` with defaults). -/
structure PyError where
  kind : String
  msg : String
  severity : Option Severity
  recoveryAction : Option RecoveryAction
deriving DecidableEq, Repr

/-- The `(kind, context)` failure key `f"{type(error).__name__}:{context}"`. -/
abbrev ErrKey := String × String

/-- Outcome of invoking a registered Python callback: it either returns a
truthiness value or raises an exception. -/
inductive CbRes
  | ok (b : Bool)
  | raises (e : String)
deriving DecidableEq, Repr

/-- Observable actions of the error handler, recorded as an event trace. -/
inductive Ev
  | criticalPath
  | degrade
  | shutdownSeq
  | strategyCall (kind : String)
  | strategyRaised (kind : String)
  | fallbackCall (component : String)
  | historyAppend
deriving DecidableEq, Repr

/-- A `FailureRecord` as built by `add_error_to_history` (error_handler.py
lines 618-642); the purely environmental fields (`stack_trace`,
`system_stats`, `resource_warnings`) are omitted from the embedding. -/
structure FailureRecord where
  timestamp : Nat
  errorType : String
  errorMessage : String
  context : String
  severity : Severity
  recoveryAction : RecoveryAction
  recoverySuccess : Bool
deriving DecidableEq, Repr

/-- Mutable state of `ProductionErrorHandler`: the tracking dicts and the
configuration fields set in `__init__` (lines 220-233). -/
structure HState where
  errorCounts : List (ErrKey × Nat)
  lastErrors : List (ErrKey × Nat)
  componentStates : List (String × String)
  errorHistory : List FailureRecord
  errorThreshold : Nat := 5
  timeWindow : Nat := 300
  maxErrorHistory : Nat := 1000

/-- The caller-registered callback tables of the handler.
`recoveryHandlers` holds the entries added through
`register_recovery_handler` keyed by exception type name; the four
default handlers installed by `_register_default_handlers` are embedded
separately in `builtinRecovery` and are consulted only when no
caller-registered entry shadows them, which matches the dict-overwrite
semantics of registration.  A `fallbackHandlers` entry records whether
the zero-argument fallback callable raises (`some e`) or returns
normally (`none`). -/
structure Env where
  recoveryHandlers : List (String × (PyError → String → CbRes))
  fallbackHandlers : List (String × Option String)

/-- An environment with no caller-registered handlers. -/
def envEmpty : Env := ⟨[], []⟩

/-- A fresh handler state with the `__init__` configuration defaults. -/
def hInit : HState :=
  { errorCounts := [], lastErrors := [], componentStates := [], errorHistory := [] }

/-- `_is_error_threshold_exceeded` (lines 424-435): reads the count and the
last-occurrence time of the key, resets the count to 1 and answers `False`
when the gap exceeds the window, else answers `count >= threshold`.
Both `time.time()` readings inside one `handle_error` invocation are
modelled as the same instant `now`. -/
def isErrorThresholdExceeded (s : HState) (key : ErrKey) (now : Nat) : Bool × HState :=
  let count := (assocGet s.errorCounts key).getD 0
  let lastTime := (assocGet s.lastErrors key).getD 0
  if s.timeWindow < now - lastTime then
    (false, { s with errorCounts := assocSet s.errorCounts key 1 })
  else
    (decide (s.errorThreshold ≤ count), s)

/-- The first block of `handle_error` (lines 404-406): increment the
per-key count and stamp the last-occurrence time. -/
def bumpCounters (s : HState) (key : ErrKey) (now : Nat) : HState :=
  { s with
    errorCounts := assocSet s.errorCounts key ((assocGet s.errorCounts key).getD 0 + 1),
    lastErrors := assocSet s.lastErrors key now }

/-- `_graceful_degradation` (lines 577-585): the repository never assigns a
`feature_manager` attribute on the handler, so the `hasattr` branch is
skipped and the method logs and returns `True`. -/
def gracefulDegradation (_ctx : String) : Bool × List Ev :=
  (true, [Ev.degrade])

/-- `_graceful_shutdown` (lines 587-596): the repository never assigns a
`resource_manager` attribute on the handler, so the cleanup branch is
skipped and the method logs and returns `False`. -/
def gracefulShutdown : Bool × List Ev :=
  (false, [Ev.shutdownSeq])

/-- `_handle_critical_error` (lines 539-548): graceful degradation first,
and only when it reports failure the graceful shutdown sequence. -/
def handleCriticalError (_err : PyError) (ctx : String) : Bool × List Ev :=
  let d := gracefulDegradation ctx
  if d.1 then (true, d.2)
  else
    let r := gracefulShutdown
    (r.1, d.2 ++ r.2)

/-- Substring test on character lists (`needle in haystack`). -/
def charsLead : List Char → List Char → Bool
  | [], _ => true
  | _ :: _, [] => false
  | a :: as, b :: bs => a == b && charsLead as bs

/-- True when `pat` occurs contiguously inside `s`. -/
def charsSub (pat : List Char) : List Char → Bool
  | [] => charsLead pat []
  | c :: rest => charsLead pat (c :: rest) || charsSub pat rest

/-- Python `pat in s` on strings. -/
def strContains (s pat : String) : Bool := charsSub pat.toList s.toList

/-- `_use_fallback` (lines 557-569): a registered fallback callable that
returns yields `True`, one that raises is caught and yields `False`, an
unregistered component yields `False` without any invocation. -/
def useFallback (env : Env) (component : String) : Bool × List Ev :=
  match assocGet env.fallbackHandlers component with
  | some none => (true, [Ev.fallbackCall component])
  | some (some _) => (false, [Ev.fallbackCall component])
  | none => (false, [])

/-- The default recovery handlers registered by
`_register_default_handlers` (lines 382-387), each embedded with the
repository-reachable value of its `hasattr` probes:
`_handle_audio_error` falls back to the `audio` fallback handler,
`_handle_recognition_error` to `recognition`, `_handle_system_error`
picks `input`/`tray` fallbacks by substring of the lowered context and
otherwise degrades gracefully, `_handle_config_error` returns `False`. -/
def builtinRecovery (env : Env) (err : PyError) (ctx : String) : Option (Bool × List Ev) :=
  if err.kind = "AudioError" then some (useFallback env "audio")
  else if err.kind = "RecognitionError" then some (useFallback env "recognition")
  else if err.kind = "SystemError" then
    some (if strContains ctx.toLower "input" then useFallback env "input"
          else if strContains ctx.toLower "tray" then useFallback env "tray"
          else gracefulDegradation ctx)
  else if err.kind = "ConfigurationError" then some (false, [])
  else none

/-- `_execute_recovery_action` (lines 471-489); its whole body sits in a
`try` whose handler returns `False`, and with the repository-reachable
attribute values every branch is total. -/
def executeRecoveryAction (env : Env) (a : RecoveryAction) (_err : PyError) (ctx : String) :
    Bool × List Ev :=
  match a with
  | RecoveryAction.retry => (false, [])
  | RecoveryAction.fallback => useFallback env ctx
  | RecoveryAction.restartComponent => (false, [])
  | RecoveryAction.gracefulDegradation => gracefulDegradation ctx
  | RecoveryAction.shutdown =>
      let r := gracefulShutdown
      (r.1, r.2)

/-- The code of `_attempt_recovery` after the registered-handler attempt
(lines 463-469): use the `recovery_action` attribute when present, else
`_default_recovery`, which is graceful degradation (lines 598-603). -/
def postHandlerRecovery (env : Env) (err : PyError) (ctx : String) : Bool × List Ev :=
  match err.recoveryAction with
  | some a => executeRecoveryAction env a err ctx
  | none => gracefulDegradation ctx

/-- `_attempt_recovery` (lines 452-469): the registered strategy for the
exact failure kind is tried inside `try/except`; when it raises, control
falls through to the generic recovery path.  The result is an `Except`
so a hypothetical uncaught exception would be visible; every branch in
fact returns `.ok`. -/
def attemptRecovery (env : Env) (err : PyError) (ctx : String) :
    Except String Bool × List Ev :=
  match assocGet env.recoveryHandlers err.kind with
  | some cb =>
    match cb err ctx with
    | CbRes.ok b => (Except.ok b, [Ev.strategyCall err.kind])
    | CbRes.raises _ =>
        let r := postHandlerRecovery env err ctx
        (Except.ok r.1, Ev.strategyCall err.kind :: Ev.strategyRaised err.kind :: r.2)
  | none =>
    match builtinRecovery env err ctx with
    | some r => (Except.ok r.1, r.2)
    | none =>
        let r := postHandlerRecovery env err ctx
        (Except.ok r.1, r.2)

/-- The `FailureRecord` dict literal of `add_error_to_history`. -/
def mkFailureRecord (err : PyError) (ctx : String) (success : Bool) (now : Nat) :
    FailureRecord :=
  { timestamp := now, errorType := err.kind, errorMessage := err.msg, context := ctx,
    severity := err.severity.getD Severity.medium,
    recoveryAction := err.recoveryAction.getD RecoveryAction.retry,
    recoverySuccess := success }

/-- `add_error_to_history` (lines 618-642): append one record, then keep
only the last `max_error_history` records. -/
def addErrorToHistory (s : HState) (err : PyError) (ctx : String) (success : Bool)
    (now : Nat) : HState :=
  { s with errorHistory :=
      trimLast (s.errorHistory ++ [mkFailureRecord err ctx success now]) s.maxErrorHistory }

/-- `handle_error` (lines 399-422): bump the counters, test the threshold;
on the critical path delegate to `_handle_critical_error` and return from
inside the lock without touching the history; otherwise log, attempt
recovery, append one history record and return the recovery outcome. -/
def handleError (env : Env) (s : HState) (err : PyError) (ctx : String) (now : Nat) :
    Except String Bool × HState × List Ev :=
  let key : ErrKey := (err.kind, ctx)
  let s1 := bumpCounters s key now
  match isErrorThresholdExceeded s1 key now with
  | (true, s2) =>
      let r := handleCriticalError err ctx
      (Except.ok r.1, s2, Ev.criticalPath :: r.2)
  | (false, s2) =>
      match attemptRecovery env err ctx with
      | (Except.ok b, evs) =>
          (Except.ok b, addErrorToHistory s2 err ctx b now, evs ++ [Ev.historyAppend])
      | (Except.error e, evs) => (Except.error e, s2, evs)

/-! ### Basic lemmas about `handleError` -/

theorem bumpCounters_errorCounts_self (s : HState) (key : ErrKey) (now : Nat) :
    assocGet (bumpCounters s key now).errorCounts key
      = some ((assocGet s.errorCounts key).getD 0 + 1) := by
  simp [bumpCounters, assocGet_set_self]

theorem isErrorThresholdExceeded_bump (s : HState) (key : ErrKey) (now : Nat) :
    isErrorThresholdExceeded (bumpCounters s key now) key now
      = (decide (s.errorThreshold ≤ (assocGet s.errorCounts key).getD 0 + 1),
         bumpCounters s key now) := by
  simp [isErrorThresholdExceeded, bumpCounters, assocGet_set_self, Nat.sub_self]

theorem criticalPath_not_mem_useFallback (env : Env) (c : String) :
    Ev.criticalPath ∉ (useFallback env c).2 := by
  unfold useFallback
  cases assocGet env.fallbackHandlers c with
  | none => simp
  | some o => cases o <;> simp

theorem criticalPath_not_mem_postHandlerRecovery (env : Env) (err : PyError) (ctx : String) :
    Ev.criticalPath ∉ (postHandlerRecovery env err ctx).2 := by
  unfold postHandlerRecovery
  cases err.recoveryAction with
  | none => simp [gracefulDegradation]
  | some a =>
    cases a <;>
      simp [executeRecoveryAction, gracefulDegradation, gracefulShutdown,
        criticalPath_not_mem_useFallback]

theorem criticalPath_not_mem_builtinRecovery (env : Env) (err : PyError) (ctx : String)
    (r : Bool × List Ev) (h : builtinRecovery env err ctx = some r) :
    Ev.criticalPath ∉ r.2 := by
  unfold builtinRecovery at h
  split_ifs at h <;>
    (cases h
     first
       | exact criticalPath_not_mem_useFallback _ _
       | simp [gracefulDegradation])

theorem criticalPath_not_mem_attemptRecovery (env : Env) (err : PyError) (ctx : String) :
    Ev.criticalPath ∉ (attemptRecovery env err ctx).2 := by
  unfold attemptRecovery
  cases hr : assocGet env.recoveryHandlers err.kind with
  | some cb =>
    cases hc : cb err ctx with
    | ok b => simp [hc]
    | raises e =>
      simp [hc, criticalPath_not_mem_postHandlerRecovery env err ctx]
  | none =>
    cases hb : builtinRecovery env err ctx with
    | some r =>
      simp only [hb]
      simpa using criticalPath_not_mem_builtinRecovery env err ctx r hb
    | none =>
      simp only [hb]
      simpa using criticalPath_not_mem_postHandlerRecovery env err ctx

theorem attemptRecovery_ok (env : Env) (err : PyError) (ctx : String) :
    ∃ b : Bool, (attemptRecovery env err ctx).1 = Except.ok b := by
  unfold attemptRecovery
  cases hr : assocGet env.recoveryHandlers err.kind with
  | some cb => cases hc : cb err ctx <;> simp [hc]
  | none => cases hb : builtinRecovery env err ctx <;> simp [hb]

theorem handleError_critical (env : Env) (s : HState) (err : PyError) (ctx : String)
    (now : Nat)
    (h : s.errorThreshold ≤ (assocGet s.errorCounts (err.kind, ctx)).getD 0 + 1) :
    handleError env s err ctx now
      = (Except.ok true, bumpCounters s (err.kind, ctx) now,
         [Ev.criticalPath, Ev.degrade]) := by
  simp [handleError, isErrorThresholdExceeded_bump, h, handleCriticalError,
    gracefulDegradation]

theorem handleError_below (env : Env) (s : HState) (err : PyError) (ctx : String)
    (now : Nat)
    (h : (assocGet s.errorCounts (err.kind, ctx)).getD 0 + 1 < s.errorThreshold) :
    ∃ b : Bool,
      (attemptRecovery env err ctx).1 = Except.ok b ∧
      handleError env s err ctx now
        = (Except.ok b,
           addErrorToHistory (bumpCounters s (err.kind, ctx) now) err ctx b now,
           (attemptRecovery env err ctx).2 ++ [Ev.historyAppend]) := by
  obtain ⟨b, hb⟩ := attemptRecovery_ok env err ctx
  rcases hA : attemptRecovery env err ctx with ⟨r, evs⟩
  rw [hA] at hb
  simp only at hb
  subst hb
  have hlt : ¬ s.errorThreshold ≤ (assocGet s.errorCounts (err.kind, ctx)).getD 0 + 1 :=
    Nat.not_le.mpr h
  refine ⟨b, rfl, ?_⟩
  unfold handleError
  simp only [isErrorThresholdExceeded_bump, decide_eq_false hlt, hA]

theorem handleError_step_below (env : Env) (s : HState) (err : PyError) (ctx : String)
    (now : Nat) (n : Nat)
    (hc : (assocGet s.errorCounts (err.kind, ctx)).getD 0 = n)
    (h : n + 1 < s.errorThreshold) :
    Ev.criticalPath ∉ (handleError env s err ctx now).2.2 ∧
    assocGet (handleError env s err ctx now).2.1.errorCounts (err.kind, ctx)
      = some (n + 1) ∧
    (handleError env s err ctx now).2.1.errorThreshold = s.errorThreshold := by
  subst hc
  obtain ⟨b, hA, hE⟩ := handleError_below env s err ctx now h
  rw [hE]
  refine ⟨?_, ?_, rfl⟩
  · simp [criticalPath_not_mem_attemptRecovery env err ctx]
  · exact assocGet_set_self s.errorCounts (err.kind, ctx)
      ((assocGet s.errorCounts (err.kind, ctx)).getD 0 + 1)

/-! ### Claim theorems for the failure classifier -/

/-- Handler state for the C1 scenario: three prior `AudioError:mic`
failures, the last one at time 0. -/
def c1State : HState :=
  { errorCounts := [(("AudioError", "mic"), 3)],
    lastErrors := [(("AudioError", "mic"), 0)],
    componentStates := [], errorHistory := [] }

/-- The failure raised in the C1 scenario. -/
def c1Error : PyError :=
  { kind := "AudioError", msg := "mic unavailable", severity := none,
    recoveryAction := none }

/-- C1: the claim says that when the gap since the last same-key failure
exceeds the time window (300 s), the next `handle_error` call resets the
counter to 1.  In the code, `handle_error` overwrites
`last_errors[error_key]` with the current time *before*
`_is_error_threshold_exceeded` compares the gap against the window, so
the gap it measures is always 0 and the reset branch is dead: with a
prior count of 3 last seen at time 0 and a new failure at time 1000
(gap 1000 > 300), the counter becomes 4, not 1. -/
theorem c1_gap_beyond_window_increments_to_four :
    assocGet (handleError envEmpty c1State c1Error "mic" 1000).2.1.errorCounts
        ("AudioError", "mic") = some 4
      ∧ (4 : Nat) ≠ 1 := by
  decide

/-- C2: starting from a state with no failures recorded for the key, five
consecutive `handle_error` calls for the same `(kind, context)` within the
time window: the first four calls never enter the critical path, and the
fifth (threshold = 5) takes the critical path — graceful degradation is
attempted (and, it succeeding, the shutdown sequence is not entered), and
the call returns `False` exactly when the shutdown sequence was
required. -/
theorem c2_fifth_same_key_call_takes_critical_path
    (env : Env) (s0 s1 s2 s3 s4 : HState) (err : PyError) (ctx : String)
    (t1 t2 t3 t4 t5 : Nat)
    (hfresh : assocGet s0.errorCounts (err.kind, ctx) = none)
    (hth : s0.errorThreshold = 5)
    (hw12 : t2 - t1 ≤ s0.timeWindow) (hw23 : t3 - t2 ≤ s0.timeWindow)
    (hw34 : t4 - t3 ≤ s0.timeWindow) (hw45 : t5 - t4 ≤ s0.timeWindow)
    (h1 : s1 = (handleError env s0 err ctx t1).2.1)
    (h2 : s2 = (handleError env s1 err ctx t2).2.1)
    (h3 : s3 = (handleError env s2 err ctx t3).2.1)
    (h4 : s4 = (handleError env s3 err ctx t4).2.1) :
    Ev.criticalPath ∉ (handleError env s0 err ctx t1).2.2 ∧
    Ev.criticalPath ∉ (handleError env s1 err ctx t2).2.2 ∧
    Ev.criticalPath ∉ (handleError env s2 err ctx t3).2.2 ∧
    Ev.criticalPath ∉ (handleError env s3 err ctx t4).2.2 ∧
    handleError env s4 err ctx t5
      = (Except.ok true, bumpCounters s4 (err.kind, ctx) t5,
         [Ev.criticalPath, Ev.degrade]) ∧
    ((handleError env s4 err ctx t5).1 = Except.ok false ↔
      Ev.shutdownSeq ∈ (handleError env s4 err ctx t5).2.2) := by
  have hc0 : (assocGet s0.errorCounts (err.kind, ctx)).getD 0 = 0 := by rw [hfresh]; rfl
  obtain ⟨hcp1, hcnt1, hthr1⟩ :=
    handleError_step_below env s0 err ctx t1 0 hc0 (by rw [hth]; decide)
  have hc1 : (assocGet s1.errorCounts (err.kind, ctx)).getD 0 = 1 := by
    rw [h1, hcnt1]; rfl
  have hthr1a : s1.errorThreshold = 5 := by rw [h1, hthr1, hth]
  obtain ⟨hcp2, hcnt2, hthr2⟩ :=
    handleError_step_below env s1 err ctx t2 1 hc1 (by rw [hthr1a]; decide)
  have hc2 : (assocGet s2.errorCounts (err.kind, ctx)).getD 0 = 2 := by
    rw [h2, hcnt2]; rfl
  have hthr2a : s2.errorThreshold = 5 := by rw [h2, hthr2, hthr1a]
  obtain ⟨hcp3, hcnt3, hthr3⟩ :=
    handleError_step_below env s2 err ctx t3 2 hc2 (by rw [hthr2a]; decide)
  have hc3 : (assocGet s3.errorCounts (err.kind, ctx)).getD 0 = 3 := by
    rw [h3, hcnt3]; rfl
  have hthr3a : s3.errorThreshold = 5 := by rw [h3, hthr3, hthr2a]
  obtain ⟨hcp4, hcnt4, hthr4⟩ :=
    handleError_step_below env s3 err ctx t4 3 hc3 (by rw [hthr3a]; decide)
  have hc4 : (assocGet s4.errorCounts (err.kind, ctx)).getD 0 = 4 := by
    rw [h4, hcnt4]; rfl
  have hthr4a : s4.errorThreshold = 5 := by rw [h4, hthr4, hthr3a]
  have hcrit : s4.errorThreshold
      ≤ (assocGet s4.errorCounts (err.kind, ctx)).getD 0 + 1 := by
    rw [hc4, hthr4a]
  have h5 := handleError_critical env s4 err ctx t5 hcrit
  refine ⟨hcp1, hcp2, hcp3, hcp4, h5, ?_⟩
  rw [h5]
  simp

/-- The failure used to witness C2: five `RecognitionError:loop` failures. -/
def c2Err : PyError :=
  { kind := "RecognitionError", msg := "no speech detected", severity := none,
    recoveryAction := none }

/-- Handler state after the first witness call. -/
def c2S1 : HState := (handleError envEmpty hInit c2Err "loop" 1).2.1

/-- Handler state after the second witness call. -/
def c2S2 : HState := (handleError envEmpty c2S1 c2Err "loop" 2).2.1

/-- Handler state after the third witness call. -/
def c2S3 : HState := (handleError envEmpty c2S2 c2Err "loop" 3).2.1

/-- Handler state after the fourth witness call. -/
def c2S4 : HState := (handleError envEmpty c2S3 c2Err "loop" 4).2.1

/-- Witness for C2 at a fresh handler, key `RecognitionError:loop`, call
times 1..5 (all gaps inside the 300 s window). -/
theorem c2_fifth_same_key_call_takes_critical_path_witness :
    (assocGet hInit.errorCounts ("RecognitionError", "loop") = none ∧
      hInit.errorThreshold = 5) ∧
    Ev.criticalPath ∉ (handleError envEmpty hInit c2Err "loop" 1).2.2 ∧
    handleError envEmpty c2S4 c2Err "loop" 5
      = (Except.ok true, bumpCounters c2S4 ("RecognitionError", "loop") 5,
         [Ev.criticalPath, Ev.degrade]) := by
  have h := c2_fifth_same_key_call_takes_critical_path envEmpty hInit c2S1 c2S2 c2S3
    c2S4 c2Err "loop" 1 2 3 4 5 rfl rfl (by decide) (by decide) (by decide) (by decide)
    rfl rfl rfl rfl
  exact ⟨⟨rfl, rfl⟩, h.1, h.2.2.2.2.1⟩

/-- C3: while the per-key counter stays below the threshold, `handle_error`
never raises — it returns a boolean — and appends exactly one
`FailureRecord` to the error history (with eviction of the oldest record
only once the capacity ceiling is reached). -/
theorem c3_below_threshold_returns_bool_and_appends_one_record
    (env : Env) (s : HState) (err : PyError) (ctx : String) (now : Nat)
    (h : (assocGet s.errorCounts (err.kind, ctx)).getD 0 + 1 < s.errorThreshold) :
    ∃ b : Bool,
      (handleError env s err ctx now).1 = Except.ok b ∧
      (handleError env s err ctx now).2.1.errorHistory
        = trimLast (s.errorHistory ++ [mkFailureRecord err ctx b now])
            s.maxErrorHistory ∧
      (s.errorHistory.length < s.maxErrorHistory →
        (handleError env s err ctx now).2.1.errorHistory
          = s.errorHistory ++ [mkFailureRecord err ctx b now]) := by
  obtain ⟨b, hA, hE⟩ := handleError_below env s err ctx now h
  refine ⟨b, by rw [hE], by rw [hE]; rfl, ?_⟩
  intro hlen
  rw [hE]
  show trimLast (s.errorHistory ++ [mkFailureRecord err ctx b now]) s.maxErrorHistory
      = s.errorHistory ++ [mkFailureRecord err ctx b now]
  unfold trimLast
  rw [if_neg (by simp only [List.length_append, List.length_singleton]; omega)]

/-- The failure used to witness C3: an unclassified failure kind. -/
def c3Err : PyError :=
  { kind := "ValueError", msg := "bad transcript", severity := none,
    recoveryAction := none }

/-- Witness for C3 on a fresh handler below the threshold. -/
theorem c3_below_threshold_returns_bool_and_appends_one_record_witness :
    ((assocGet hInit.errorCounts ("ValueError", "parse")).getD 0 + 1
        < hInit.errorThreshold) ∧
    ∃ b : Bool,
      (handleError envEmpty hInit c3Err "parse" 7).1 = Except.ok b ∧
      (handleError envEmpty hInit c3Err "parse" 7).2.1.errorHistory
        = trimLast (hInit.errorHistory ++ [mkFailureRecord c3Err "parse" b 7])
            hInit.maxErrorHistory ∧
      (hInit.errorHistory.length < hInit.maxErrorHistory →
        (handleError envEmpty hInit c3Err "parse" 7).2.1.errorHistory
          = hInit.errorHistory ++ [mkFailureRecord c3Err "parse" b 7]) :=
  ⟨by decide,
   c3_below_threshold_returns_bool_and_appends_one_record envEmpty hInit c3Err
     "parse" 7 (by decide)⟩

/-- Environment in which the registered recovery strategy for kind
`CustomError` raises. -/
def c9Env : Env :=
  { recoveryHandlers := [("CustomError", fun _ _ => CbRes.raises "boom")],
    fallbackHandlers := [] }

/-- A `CustomError` failure carrying no `recovery_action` attribute. -/
def c9Error : PyError :=
  { kind := "CustomError", msg := "strategy blows up", severity := none,
    recoveryAction := none }

/-- C9 counterexample: the registered strategy for `CustomError` raises,
yet `handle_error` returns `True` — after catching and logging the
strategy's exception the dispatcher falls through to the generic recovery
path (here default recovery = graceful degradation, which succeeds), so
the outcome is not treated as a recovery failure as the claim states. -/
theorem c9_raising_strategy_still_returns_true :
    (handleError c9Env hInit c9Error "ctx" 10).1 = Except.ok true ∧
    Ev.strategyRaised "CustomError" ∈ (handleError c9Env hInit c9Error "ctx" 10).2.2 :=
  ⟨rfl, by decide⟩

/-- C9 amended: a recovery strategy that raises is caught and logged and
the exception is never propagated to the caller; the dispatcher then falls
through to the generic recovery path (the failure's embedded recovery
action when present, else default graceful degradation) and `handle_error`
returns that path's outcome — which need not be `False`. -/
theorem c9_raising_strategy_caught_and_falls_through
    (env : Env) (s : HState) (err : PyError) (ctx : String) (now : Nat)
    (cb : PyError → String → CbRes) (e : String)
    (hbelow : (assocGet s.errorCounts (err.kind, ctx)).getD 0 + 1 < s.errorThreshold)
    (hcb : assocGet env.recoveryHandlers err.kind = some cb)
    (hr : cb err ctx = CbRes.raises e) :
    (handleError env s err ctx now).1
      = Except.ok (postHandlerRecovery env err ctx).1 ∧
    Ev.strategyRaised err.kind ∈ (handleError env s err ctx now).2.2 := by
  have hAR : attemptRecovery env err ctx
      = (Except.ok (postHandlerRecovery env err ctx).1,
         Ev.strategyCall err.kind :: Ev.strategyRaised err.kind
           :: (postHandlerRecovery env err ctx).2) := by
    unfold attemptRecovery
    simp only [hcb, hr]
  obtain ⟨b, hA, hE⟩ := handleError_below env s err ctx now hbelow
  rw [hAR] at hA hE
  simp only [Except.ok.injEq] at hA
  subst hA
  rw [hE]
  exact ⟨rfl, by simp⟩

/-- Witness for the amended C9 at the concrete raising strategy. -/
theorem c9_raising_strategy_caught_and_falls_through_witness :
    ((assocGet hInit.errorCounts ("CustomError", "ctx")).getD 0 + 1
        < hInit.errorThreshold) ∧
    (handleError c9Env hInit c9Error "ctx" 10).1
      = Except.ok (postHandlerRecovery c9Env c9Error "ctx").1 ∧
    Ev.strategyRaised "CustomError" ∈ (handleError c9Env hInit c9Error "ctx" 10).2.2 :=
  ⟨by decide,
   c9_raising_strategy_caught_and_falls_through c9Env hInit c9Error "ctx" 10
     (fun _ _ => CbRes.raises "boom") "boom" (by decide) rfl rfl⟩

/-! ### Lock discipline of the handler's reporting calls

`ProductionErrorHandler.__init__` creates `self._lock = threading.Lock()`
(line 236), a non-reentrant mutual-exclusion lock.  The sequences of
acquisitions and releases that each reporting method performs on this one
lock are recorded below, a nested call contributing its own sequence at
its call site. -/

/-- Acquisition/release events on the handler's single lock. -/
inductive LockEv
  | acq
  | rel
deriving DecidableEq, Repr

/-- Scan a lock trace with the current hold depth and report whether the
lock is ever acquired while already held; on Python's non-reentrant
`threading.Lock` such an acquisition blocks the calling thread forever. -/
def nestedAcquire : Nat → List LockEv → Bool
  | _, [] => false
  | depth, LockEv.acq :: t => decide (0 < depth) || nestedAcquire (depth + 1) t
  | depth, LockEv.rel :: t => nestedAcquire (depth - 1) t

/-- The trace re-acquires the lock while already holding it. -/
def hasNestedAcquire (tr : List LockEv) : Bool := nestedAcquire 0 tr

/-- `get_error_statistics` (lines 605-616): one `with self._lock` block. -/
def getErrorStatisticsLockTrace : List LockEv := [LockEv.acq, LockEv.rel]

/-- `get_component_health` (lines 644-647): one `with self._lock` block. -/
def getComponentHealthLockTrace : List LockEv := [LockEv.acq, LockEv.rel]

/-- `get_detailed_error_report` (lines 655-675): enters `with self._lock`
and, while holding it, calls `self.get_error_statistics()` (line 665) and
`self.get_component_health()` (line 666), each of which opens its own
`with self._lock` block on the same lock. -/
def getDetailedErrorReportLockTrace : List LockEv :=
  LockEv.acq :: ((getErrorStatisticsLockTrace ++ getComponentHealthLockTrace)
    ++ [LockEv.rel])

/-- `save_error_report` (lines 677-694): takes no lock of its own and calls
`self.get_detailed_error_report()` (line 685) to obtain the snapshot it
serializes. -/
def saveErrorReportLockTrace : List LockEv := getDetailedErrorReportLockTrace

/-- C8: the diagnostic-export call can never produce its snapshot —
`save_error_report` calls `get_detailed_error_report`, which re-acquires
the handler's non-reentrant lock inside `get_error_statistics`, so the
export deadlocks before serializing anything and the claimed round-trip
between the export and the live statistics cannot take place. -/
theorem c8_export_deadlocks_before_producing_snapshot :
    hasNestedAcquire saveErrorReportLockTrace = true := by decide

/-- C10: `get_detailed_error_report` violates the claimed lock
discipline — it calls `get_error_statistics` and `get_component_health`
while holding the handler's own non-reentrant mutual-exclusion lock,
re-entering that lock inside its own critical section. -/
theorem c10_detailed_report_reenters_own_lock :
    hasNestedAcquire getDetailedErrorReportLockTrace = true := by decide

/-! ### Health monitor (`health_monitor.py`) -/

/-- `HealthStatus` (health_monitor.py lines 24-29). -/
inductive HealthStatus
  | healthy
  | warning
  | critical
  | unknown
deriving DecidableEq, Repr

/-- `ComponentType` (lines 32-42). -/
inductive ComponentType
  | audioSystem
  | speechRecognition
  | memoryUsage
  | cpuUsage
  | diskUsage
  | network
  | guiSystem
  | inputSystem
  | serviceStatus
deriving DecidableEq, Repr

/-- Numeric severity of a status under the precedence
Critical > Warning > Unknown > Healthy. -/
def statusRank : HealthStatus → Nat
  | HealthStatus.healthy => 0
  | HealthStatus.unknown => 1
  | HealthStatus.warning => 2
  | HealthStatus.critical => 3

/-- The worse of two statuses under the precedence order. -/
def statusMax (a b : HealthStatus) : HealthStatus :=
  if statusRank a ≤ statusRank b then b else a

/-- The worst status in a list (`healthy` when the list is empty). -/
def worstStatus (l : List HealthStatus) : HealthStatus :=
  l.foldr statusMax HealthStatus.healthy

/-- `_get_overall_status` (lines 693-708) applied to the statuses held in
the `current_health` map: `Unknown` on an empty map, else `Critical` if
any value is critical, else `Warning` if any warns, else `Unknown` if any
is unknown, else `Healthy`. -/
def getOverallStatus (cur : List (ComponentType × HealthStatus)) : HealthStatus :=
  if cur.isEmpty then HealthStatus.unknown
  else
    let statuses := cur.map Prod.snd
    if HealthStatus.critical ∈ statuses then HealthStatus.critical
    else if HealthStatus.warning ∈ statuses then HealthStatus.warning
    else if HealthStatus.unknown ∈ statuses then HealthStatus.unknown
    else HealthStatus.healthy

theorem statusRank_statusMax (a b : HealthStatus) :
    statusRank (statusMax a b) = max (statusRank a) (statusRank b) := by
  unfold statusMax
  split_ifs with h <;> omega

theorem statusRank_worstStatus (l : List HealthStatus) :
    statusRank (worstStatus l) = (l.map statusRank).foldr max 0 := by
  induction l with
  | nil => rfl
  | cons a t ih =>
    have hstep : worstStatus (a :: t) = statusMax a (worstStatus t) := rfl
    rw [hstep, statusRank_statusMax, ih]
    simp

theorem statusRank_injective (a b : HealthStatus) (h : statusRank a = statusRank b) :
    a = b := by
  cases a <;> cases b <;> simp_all [statusRank]

theorem statusRank_le_three (a : HealthStatus) : statusRank a ≤ 3 := by
  cases a <;> simp [statusRank]

theorem statusRank_le_two (a : HealthStatus) (h : a ≠ HealthStatus.critical) :
    statusRank a ≤ 2 := by
  cases a <;> simp_all [statusRank]

theorem statusRank_le_one (a : HealthStatus) (h1 : a ≠ HealthStatus.critical)
    (h2 : a ≠ HealthStatus.warning) : statusRank a ≤ 1 := by
  cases a <;> simp_all [statusRank]

theorem statusRank_eq_zero (a : HealthStatus) (h1 : a ≠ HealthStatus.critical)
    (h2 : a ≠ HealthStatus.warning) (h3 : a ≠ HealthStatus.unknown) :
    statusRank a = 0 := by
  cases a <;> simp_all [statusRank]

theorem le_foldrMax {x : Nat} {L : List Nat} (h : x ∈ L) : x ≤ L.foldr max 0 := by
  induction L with
  | nil => cases h
  | cons a t ih =>
    rcases List.mem_cons.mp h with h | h
    · subst h
      exact Nat.le_max_left _ _
    · exact Nat.le_trans (ih h) (Nat.le_max_right _ _)

theorem foldrMax_le {b : Nat} {L : List Nat} (h : ∀ x ∈ L, x ≤ b) :
    L.foldr max 0 ≤ b := by
  induction L with
  | nil => exact Nat.zero_le b
  | cons a t ih =>
    simp only [List.foldr_cons]
    exact Nat.max_le.mpr ⟨h a (List.mem_cons_self a t), ih fun x hx => h x (List.mem_cons_of_mem a hx)⟩

/-- C4: for every non-empty current-health map, `_get_overall_status`
returns the worst individual status under the precedence
Critical > Warning > Unknown > Healthy; in particular the aggregate is
Critical whenever at least one component result is Critical. -/
theorem c4_overall_status_is_worst
    (cur : List (ComponentType × HealthStatus)) (h : cur ≠ []) :
    getOverallStatus cur = worstStatus (cur.map Prod.snd) ∧
    ((∃ p ∈ cur, p.2 = HealthStatus.critical) →
      getOverallStatus cur = HealthStatus.critical) := by
  rcases cur with _ | ⟨q, t⟩
  · exact absurd rfl h
  constructor
  · apply statusRank_injective
    rw [statusRank_worstStatus]
    by_cases hc : HealthStatus.critical ∈ (q :: t).map Prod.snd
    · have h1 : getOverallStatus (q :: t) = HealthStatus.critical := by
        simp only [getOverallStatus, List.isEmpty_cons]
        rw [if_neg (by simp), if_pos hc]
      rw [h1]
      refine Nat.le_antisymm ?_ (foldrMax_le ?_)
      · exact le_foldrMax (List.mem_map_of_mem statusRank hc)
      · intro x hx
        obtain ⟨a, _, rfl⟩ := List.mem_map.mp hx
        exact statusRank_le_three a
    · by_cases hw : HealthStatus.warning ∈ (q :: t).map Prod.snd
      · have h1 : getOverallStatus (q :: t) = HealthStatus.warning := by
          simp only [getOverallStatus, List.isEmpty_cons]
          rw [if_neg (by simp), if_neg hc, if_pos hw]
        rw [h1]
        refine Nat.le_antisymm ?_ (foldrMax_le ?_)
        · exact le_foldrMax (List.mem_map_of_mem statusRank hw)
        · intro x hx
          obtain ⟨a, ha, rfl⟩ := List.mem_map.mp hx
          exact statusRank_le_two a (fun hh => hc (hh ▸ ha))
      · by_cases hu : HealthStatus.unknown ∈ (q :: t).map Prod.snd
        · have h1 : getOverallStatus (q :: t) = HealthStatus.unknown := by
            simp only [getOverallStatus, List.isEmpty_cons]
            rw [if_neg (by simp), if_neg hc, if_neg hw, if_pos hu]
          rw [h1]
          refine Nat.le_antisymm ?_ (foldrMax_le ?_)
          · exact le_foldrMax (List.mem_map_of_mem statusRank hu)
          · intro x hx
            obtain ⟨a, ha, rfl⟩ := List.mem_map.mp hx
            exact statusRank_le_one a (fun hh => hc (hh ▸ ha)) (fun hh => hw (hh ▸ ha))
        · have h1 : getOverallStatus (q :: t) = HealthStatus.healthy := by
            simp only [getOverallStatus, List.isEmpty_cons]
            rw [if_neg (by simp), if_neg hc, if_neg hw, if_neg hu]
          rw [h1]
          have hz : List.foldr max 0
              (List.map statusRank (List.map Prod.snd (q :: t))) = 0 := by
            refine Nat.le_antisymm (foldrMax_le ?_) (Nat.zero_le _)
            intro x hx
            obtain ⟨a, ha, rfl⟩ := List.mem_map.mp hx
            have := statusRank_eq_zero a (fun hh => hc (hh ▸ ha))
              (fun hh => hw (hh ▸ ha)) (fun hh => hu (hh ▸ ha))
            omega
          rw [hz]
          rfl
  · rintro ⟨p, hp, hcrit⟩
    have hc : HealthStatus.critical ∈ (q :: t).map Prod.snd :=
      hcrit ▸ List.mem_map_of_mem Prod.snd hp
    simp only [getOverallStatus, List.isEmpty_cons]
    rw [if_neg (by simp), if_pos hc]

/-- Witness for C4: one critical probe among healthy ones dominates. -/
theorem c4_overall_status_is_worst_witness :
    ([(ComponentType.audioSystem, HealthStatus.critical),
      (ComponentType.memoryUsage, HealthStatus.healthy),
      (ComponentType.cpuUsage, HealthStatus.healthy)]
        ≠ ([] : List (ComponentType × HealthStatus))) ∧
    (getOverallStatus
        [(ComponentType.audioSystem, HealthStatus.critical),
         (ComponentType.memoryUsage, HealthStatus.healthy),
         (ComponentType.cpuUsage, HealthStatus.healthy)]
      = worstStatus [HealthStatus.critical, HealthStatus.healthy, HealthStatus.healthy] ∧
    ((∃ p ∈ [(ComponentType.audioSystem, HealthStatus.critical),
             (ComponentType.memoryUsage, HealthStatus.healthy),
             (ComponentType.cpuUsage, HealthStatus.healthy)],
        p.2 = HealthStatus.critical) →
      getOverallStatus
          [(ComponentType.audioSystem, HealthStatus.critical),
           (ComponentType.memoryUsage, HealthStatus.healthy),
           (ComponentType.cpuUsage, HealthStatus.healthy)]
        = HealthStatus.critical)) :=
  ⟨by decide,
   c4_overall_status_is_worst
     [(ComponentType.audioSystem, HealthStatus.critical),
      (ComponentType.memoryUsage, HealthStatus.healthy),
      (ComponentType.cpuUsage, HealthStatus.healthy)] (by decide)⟩

/-! ### Remediation and its cooldown (`health_monitor.py`) -/

/-- The fixed cooldown between remediation attempts for one component
(`self.cooldown_period = 300`, line 91; never reassigned). -/
def cooldownPeriod : Nat := 300

/-- Health-monitor state relevant to remediation: the registered
remediation handlers (a handler's outcome may depend on the probe instant
and the unhealthy check it is handed), the per-component timestamp of the
last attempt, and the cumulative success counter. -/
structure MonState where
  remediationHandlers : List (ComponentType × (Nat → HealthStatus → CbRes))
  remediationCooldown : List (ComponentType × Nat)
  remediationCount : Nat

/-- A monitor state as `__init__` builds it (lines 88-96), with the given
handler table and an empty cooldown map. -/
def monInit (handlers : List (ComponentType × (Nat → HealthStatus → CbRes))) :
    MonState :=
  { remediationHandlers := handlers, remediationCooldown := [],
    remediationCount := 0 }

/-- `_should_attempt_remediation` (lines 608-614): a handler must be
registered and the time since the last attempt (defaulting to 0) must
exceed the cooldown period. -/
def shouldAttemptRemediation (ms : MonState) (c : ComponentType) (now : Nat) : Bool :=
  (assocGet ms.remediationHandlers c).isSome
    && decide (cooldownPeriod < now - (assocGet ms.remediationCooldown c).getD 0)

/-- `_attempt_remediation` (lines 616-629): stamp the cooldown timestamp
first, then run the registered handler inside `try/except` — a raising
handler yields `False`, and the timestamp stays stamped either way. -/
def attemptRemediation (ms : MonState) (c : ComponentType) (now : Nat)
    (st : HealthStatus) : MonState × Bool :=
  let ms1 := { ms with remediationCooldown := assocSet ms.remediationCooldown c now }
  match assocGet ms.remediationHandlers c with
  | some f =>
    match f now st with
    | CbRes.ok b => (ms1, b)
    | CbRes.raises _ => (ms1, false)
  | none => (ms1, false)

/-- One component's slice of `_attempt_remediations` (lines 591-606): the
attempt plus the success-counter update. -/
def remediationStep (ms : MonState) (c : ComponentType) (now : Nat)
    (st : HealthStatus) : MonState :=
  let r := attemptRemediation ms c now st
  if r.2 then { r.1 with remediationCount := r.1.remediationCount + 1 } else r.1

/-- `_attempt_remediations` (lines 591-606) over one check cycle's result
map: every component probed Warning or Critical whose cooldown has elapsed
is remediated; the returned list logs each attempt as `(component, time)`
in iteration order. -/
def attemptRemediations (ms : MonState)
    (checks : List (ComponentType × HealthStatus)) (now : Nat) :
    MonState × List (ComponentType × Nat) :=
  match checks with
  | [] => (ms, [])
  | (c, st) :: rest =>
    if (st = HealthStatus.warning ∨ st = HealthStatus.critical) ∧
        shouldAttemptRemediation ms c now = true then
      ((attemptRemediations (remediationStep ms c now st) rest now).1,
       (c, now) :: (attemptRemediations (remediationStep ms c now st) rest now).2)
    else
      attemptRemediations ms rest now

/-- A run of successive check cycles, each given by its `time.time()`
instant and that cycle's probe results; returns the final state and the
chronological log of remediation attempts. -/
def runCycles (ms : MonState) :
    List (Nat × List (ComponentType × HealthStatus)) →
      MonState × List (ComponentType × Nat)
  | [] => (ms, [])
  | (now, checks) :: rest =>
    ((runCycles (attemptRemediations ms checks now).1 rest).1,
     (attemptRemediations ms checks now).2
       ++ (runCycles (attemptRemediations ms checks now).1 rest).2)

/-- The last-attempt timestamp recorded for a component (0 when none). -/
def cdOf (ms : MonState) (c : ComponentType) : Nat :=
  (assocGet ms.remediationCooldown c).getD 0

/-- Any two logged attempts for the same component are separated by more
than the cooldown period. -/
def CooldownSeparated (evs : List (ComponentType × Nat)) : Prop :=
  List.Pairwise (fun a b => a.1 = b.1 → a.2 + cooldownPeriod < b.2) evs

/-- Run invariant: every logged attempt is no later than the recorded
cooldown timestamp of its component, and the log is cooldown-separated. -/
def AttemptInv (ms : MonState) (evs : List (ComponentType × Nat)) : Prop :=
  (∀ p ∈ evs, p.2 ≤ cdOf ms p.1) ∧ CooldownSeparated evs

theorem attemptRemediation_cooldown (ms : MonState) (c : ComponentType) (now : Nat)
    (st : HealthStatus) :
    (attemptRemediation ms c now st).1.remediationCooldown
      = assocSet ms.remediationCooldown c now := by
  unfold attemptRemediation
  cases hf : assocGet ms.remediationHandlers c with
  | none => rfl
  | some f => cases hr : f now st <;> simp [hr]

theorem remediationStep_cooldown (ms : MonState) (c : ComponentType) (now : Nat)
    (st : HealthStatus) :
    (remediationStep ms c now st).remediationCooldown
      = assocSet ms.remediationCooldown c now := by
  unfold remediationStep
  cases hb : (attemptRemediation ms c now st).2 <;>
    simp [hb, attemptRemediation_cooldown]

theorem shouldAttempt_gap (ms : MonState) (c : ComponentType) (now : Nat)
    (h : shouldAttemptRemediation ms c now = true) :
    cdOf ms c + cooldownPeriod < now := by
  unfold shouldAttemptRemediation at h
  rw [Bool.and_eq_true] at h
  have h3 := of_decide_eq_true h.2
  unfold cdOf
  omega

theorem attemptRemediations_inv
    (checks : List (ComponentType × HealthStatus)) (ms : MonState) (now : Nat)
    (evs0 : List (ComponentType × Nat)) (h : AttemptInv ms evs0) :
    AttemptInv (attemptRemediations ms checks now).1
      (evs0 ++ (attemptRemediations ms checks now).2) := by
  induction checks generalizing ms evs0 with
  | nil => simpa [attemptRemediations] using h
  | cons p rest ih =>
    obtain ⟨c, st⟩ := p
    by_cases hg : (st = HealthStatus.warning ∨ st = HealthStatus.critical) ∧
        shouldAttemptRemediation ms c now = true
    · have hgap : cdOf ms c + cooldownPeriod < now := shouldAttempt_gap ms c now hg.2
      have hinv2 : AttemptInv (remediationStep ms c now st) (evs0 ++ [(c, now)]) := by
        constructor
        · intro p hp
          rcases List.mem_append.mp hp with hp | hp
          · have h1 := h.1 p hp
            by_cases hpc : p.1 = c
            · rw [hpc] at h1 ⊢
              unfold cdOf
              rw [remediationStep_cooldown, assocGet_set_self]
              show p.2 ≤ now
              omega
            · unfold cdOf
              rw [remediationStep_cooldown, assocGet_set_ne _ _ _ _ hpc]
              exact h1
          · rw [List.mem_singleton.mp hp]
            unfold cdOf
            rw [remediationStep_cooldown, assocGet_set_self]
            exact Nat.le_refl now
        · unfold CooldownSeparated
          rw [List.pairwise_append]
          refine ⟨h.2, List.pairwise_singleton _ _, ?_⟩
          intro a ha b hb
          rw [List.mem_singleton.mp hb]
          intro hac
          have h1 := h.1 a ha
          rw [hac] at h1
          have h1a : a.2 ≤ cdOf ms c := h1
          show a.2 + cooldownPeriod < now
          omega
      have hstep : attemptRemediations ms ((c, st) :: rest) now
          = ((attemptRemediations (remediationStep ms c now st) rest now).1,
             (c, now) :: (attemptRemediations (remediationStep ms c now st) rest now).2) := by
        simp only [attemptRemediations]
        rw [if_pos hg]
      rw [hstep]
      have h2 := ih (remediationStep ms c now st) (evs0 ++ [(c, now)]) hinv2
      constructor
      · intro p hp
        refine h2.1 p ?_
        simp only [List.append_assoc, List.singleton_append] at hp ⊢
        exact hp
      · have := h2.2
        simpa [List.append_assoc] using this
    · have hstep : attemptRemediations ms ((c, st) :: rest) now
          = attemptRemediations ms rest now := by
        simp only [attemptRemediations]
        rw [if_neg hg]
      rw [hstep]
      exact ih ms evs0 h

theorem runCycles_inv
    (cycles : List (Nat × List (ComponentType × HealthStatus))) (ms : MonState)
    (evs0 : List (ComponentType × Nat)) (h : AttemptInv ms evs0) :
    AttemptInv (runCycles ms cycles).1 (evs0 ++ (runCycles ms cycles).2) := by
  induction cycles generalizing ms evs0 with
  | nil => simpa [runCycles] using h
  | cons p rest ih =>
    obtain ⟨now, checks⟩ := p
    have h1 := attemptRemediations_inv checks ms now evs0 h
    have h2 := ih (attemptRemediations ms checks now).1 _ h1
    simp only [runCycles]
    constructor
    · intro q hq
      refine h2.1 q ?_
      simpa [List.append_assoc] using hq
    · have := h2.2
      simpa [List.append_assoc] using this

/-- C5: (1) over every run of check cycles — whatever the registered
handlers, probe statuses and probe instants — any two remediation attempts
logged for the same component are separated by more than the cooldown
period (300 s), so a component is never remediated twice within one
cooldown period even if probed unhealthy on every intervening cycle; and
(2) `_attempt_remediation` stamps the cooldown timestamp for the attempted
component to the attempt time regardless of whether the handler succeeds,
fails, raises, or is absent. -/
theorem c5_remediation_never_twice_within_cooldown :
    (∀ (handlers : List (ComponentType × (Nat → HealthStatus → CbRes)))
       (cycles : List (Nat × List (ComponentType × HealthStatus))),
        CooldownSeparated (runCycles (monInit handlers) cycles).2) ∧
    (∀ (ms : MonState) (c : ComponentType) (now : Nat) (st : HealthStatus),
        cdOf (attemptRemediation ms c now st).1 c = now) := by
  constructor
  · intro handlers cycles
    have hbase : AttemptInv (monInit handlers) [] :=
      ⟨fun p hp => absurd hp (List.not_mem_nil p), List.Pairwise.nil⟩
    have h := runCycles_inv cycles (monInit handlers) [] hbase
    simpa using h.2
  · intro ms c now st
    unfold cdOf
    rw [attemptRemediation_cooldown, assocGet_set_self]
    rfl

/-! ### Resource registry (`resource_manager.py`) -/

/-- A registered resource: the embedding keeps the one control-relevant
property of its release function — whether invoking it raises. -/
structure Resource where
  releaseRaises : Bool
deriving DecidableEq, Repr

/-- Observable actions of the registry: a named resource's release
function is invoked, or the shutdown hook at an index of
`cleanup_handlers` runs. -/
inductive REv
  | released (name : String)
  | hookRun (i : Nat)
deriving DecidableEq, Repr

/-- State of `ResourceManager` (lines 26-33): the `active_resources` dict
and the `cleanup_handlers` list (for each hook, whether it raises). -/
structure RegState where
  activeResources : List (String × Resource)
  cleanupHandlers : List Bool

/-- `cleanup_resource` (lines 68-84): an unregistered name returns `False`
without invoking anything; otherwise the release function is invoked once
and — whether it returns (`True`) or raises (caught and logged, `False`) —
the entry is deleted from the registry. -/
def cleanupResource (rs : RegState) (name : String) : Bool × RegState × List REv :=
  match assocGet rs.activeResources name with
  | none => (false, rs, [])
  | some r =>
    (!r.releaseRaises,
     { rs with activeResources := assocErase rs.activeResources name },
     [REv.released name])

/-- `cleanup_all` (lines 86-112): a snapshot of the registry is taken,
each entry's release is invoked inside its own `try/except` (so every
release runs, raising or not), the registry is cleared, and every
registered cleanup handler then runs, each inside its own `try/except`. -/
def cleanupAll (rs : RegState) : RegState × List REv :=
  ({ rs with activeResources := [] },
   rs.activeResources.map (fun p => REv.released p.1)
     ++ (List.range rs.cleanupHandlers.length).map REv.hookRun)

/-- C6: a registered resource's release is invoked at most once across
registry operations: the first `cleanup_resource(name)` call invokes the
release exactly once and returns `True` precisely when the release does
not raise; a second call returns `False` and performs no invocation —
also when the release raised the first time. -/
theorem c6_release_invoked_at_most_once
    (rs : RegState) (name : String) (r : Resource)
    (hkeys : NodupKeys rs.activeResources)
    (hreg : assocGet rs.activeResources name = some r) :
    (cleanupResource rs name).1 = !r.releaseRaises ∧
    (cleanupResource rs name).2.2 = [REv.released name] ∧
    (cleanupResource (cleanupResource rs name).2.1 name).1 = false ∧
    (cleanupResource (cleanupResource rs name).2.1 name).2.2 = [] := by
  have hnone : assocGet (assocErase rs.activeResources name) name = none :=
    assocGet_erase_self rs.activeResources name hkeys
  have h1 : cleanupResource rs name
      = (!r.releaseRaises,
         { rs with activeResources := assocErase rs.activeResources name },
         [REv.released name]) := by
    unfold cleanupResource
    rw [hreg]
  have h2 : cleanupResource
      { rs with activeResources := assocErase rs.activeResources name } name
      = (false, { rs with activeResources := assocErase rs.activeResources name },
         []) := by
    unfold cleanupResource
    simp only [hnone]
  refine ⟨by rw [h1], by rw [h1], ?_, ?_⟩
  · rw [h1]
    show (cleanupResource
      { rs with activeResources := assocErase rs.activeResources name } name).1 = false
    rw [h2]
  · rw [h1]
    show (cleanupResource
      { rs with activeResources := assocErase rs.activeResources name } name).2.2 = []
    rw [h2]

/-- The registry of the C6 witness scenario: `buf1` with a release that
returns normally, no shutdown hooks. -/
def regBuf : RegState := ⟨[("buf1", ⟨false⟩)], []⟩

/-- The `buf1` resource of the witness scenario. -/
def bufRes : Resource := ⟨false⟩

/-- Witness for C6: releasing `buf1` twice — first call `True` with one
release invocation, second call `False` with none. -/
theorem c6_release_invoked_at_most_once_witness :
    (NodupKeys regBuf.activeResources ∧
      assocGet regBuf.activeResources "buf1" = some bufRes) ∧
    ((cleanupResource regBuf "buf1").1 = !bufRes.releaseRaises ∧
     (cleanupResource regBuf "buf1").2.2 = [REv.released "buf1"] ∧
     (cleanupResource (cleanupResource regBuf "buf1").2.1 "buf1").1 = false ∧
     (cleanupResource (cleanupResource regBuf "buf1").2.1 "buf1").2.2 = []) :=
  ⟨⟨by decide, rfl⟩,
   c6_release_invoked_at_most_once regBuf "buf1" bufRes (by decide) rfl⟩

/-- The registry of the C7 counterexample: a raising release, a succeeding
release, and one registered shutdown hook. -/
def c7Reg : RegState :=
  { activeResources := [("bad", ⟨true⟩), ("good", ⟨false⟩)],
    cleanupHandlers := [false] }

/-- C7 counterexample: a second `cleanup_all` call is not a no-op — on a
registry with a registered shutdown hook it invokes that hook again. -/
theorem c7_second_cleanup_all_reruns_hooks :
    (cleanupAll (cleanupAll c7Reg).1).2 = [REv.hookRun 0] ∧
    [REv.hookRun 0] ≠ ([] : List REv) := by decide

/-- C7 amended: `cleanup_all` attempts every registered release
independently — each release is invoked even when others raise — then
clears the registry, and every registered shutdown hook runs, each
isolated from the others' exceptions; a second call invokes no release and
leaves the registry empty (the registry part is idempotent), but it runs
the registered shutdown hooks again. -/
theorem c7_cleanup_all_exception_isolated
    (rs : RegState) :
    (∀ p ∈ rs.activeResources, REv.released p.1 ∈ (cleanupAll rs).2) ∧
    (cleanupAll rs).1.activeResources = [] ∧
    (∀ i, i < rs.cleanupHandlers.length → REv.hookRun i ∈ (cleanupAll rs).2) ∧
    (∀ n : String, REv.released n ∉ (cleanupAll (cleanupAll rs).1).2) ∧
    (cleanupAll (cleanupAll rs).1).1.activeResources = [] ∧
    (cleanupAll (cleanupAll rs).1).2
      = (List.range rs.cleanupHandlers.length).map REv.hookRun := by
  refine ⟨?_, rfl, ?_, ?_, rfl, by simp [cleanupAll]⟩
  · intro p hp
    exact List.mem_append_left _
      (List.mem_map_of_mem (fun q => REv.released q.1) hp)
  · intro i hi
    exact List.mem_append_right _
      (List.mem_map_of_mem REv.hookRun (List.mem_range.mpr hi))
  · intro n hn
    simp only [cleanupAll, List.map_nil, List.nil_append, List.mem_map] at hn
    obtain ⟨i, _, hi⟩ := hn
    cases hi

end VoiceControl
